import Mathlib

/-!
Verification of the NeighborNexus matching and notification core.

This file gives a shallow embedding, in Lean 4, of the two subsystems of the
NeighborNexus backend that the specification covers: the Match Ranker
(`internal/services/matching.go` together with the similarity scorer of the
embedding service) and the Notification Hub (`internal/services/websocket.go`),
plus the data model they use (`internal/models`).

Modelling conventions:
* Go `float64`/`float32` values are modelled as exact rationals (`ℚ`) where the
  code only adds, multiplies, divides and compares (the similarity scorer and
  the ranking pipeline), and as real numbers (`ℝ`) where the code calls
  transcendental library functions (`math.Sin`, `math.Cos`, `math.Atan2`,
  `math.Sqrt` in the haversine distance).
* Mongo `primitive.ObjectID` values are modelled as their hex `String`s.
* `time.Time` fields (`CreatedAt`, ...) are wall-clock data never read by the
  verified operations and are omitted from the embedded structures, as are
  other fields (title, urgency, rating, ...) that the verified operations do
  not touch.
* Go channels of capacity `n` are modelled as a queued-message list together
  with the capacity; a channel send that would block (`select`/`default`)
  corresponds to `queue.length < capacity` failing.
-/

set_option maxRecDepth 8000

deriving instance DecidableEq for Except

namespace NeighborNexus

/-- Location from `internal/models` (`models.Location`): latitude/longitude
(used by the scorers) plus the privacy bucket and address strings. -/
structure Location (α : Type) where
  latitude : α
  longitude : α
  h3Index : String := ""
  address : String := ""
  deriving Repr, DecidableEq

/-- Need from `internal/models` (`models.Need`), restricted to the fields the
verified operations read: identity, owner identity, embedding and location.
`ObjectID`s are hex strings; `CreatedAt`/status/expiry drive only the Mongo
query of `getActiveNeeds`, which is modelled as the fetched pool itself. -/
structure Need (α : Type) where
  id : String
  userId : String
  embedding : List α
  location : Location α
  deriving Repr, DecidableEq

/-- Volunteer from `internal/models` (`models.Volunteer`), restricted to the
fields the verified operations read. -/
structure Volunteer (α : Type) where
  id : String
  userId : String
  embedding : List α
  location : Location α
  deriving Repr, DecidableEq

/-- Match from `internal/models` (`models.Match`): `(NeedID, VolunteerID,
Score, Distance)`.  The `CreatedAt` wall-clock stamp is omitted. -/
structure Match (α : Type) where
  needId : String
  volunteerId : String
  score : α
  distance : α
  deriving Repr, DecidableEq

/-- One Newton step of the hand-rolled square root in the embedding service:
`z = z - (z*z - x) / (2*z)`. -/
def newtonStep (x z : ℚ) : ℚ :=
  z - (z * z - x) / (2 * z)

/-- The `sqrt` helper of the embedding service (`websocket.go` services file,
`func sqrt`): returns 0 for `x <= 0`, otherwise runs exactly 10 Newton
iterations starting from `z = x`. -/
def sqrt (x : ℚ) : ℚ :=
  if x ≤ 0 then 0
  else Nat.rec x (fun _ z => newtonStep x z) 10

/-- Sum of pairwise products accumulated by the loop of `CalculateSimilarity`
(`dotProduct += embedding1[i] * embedding2[i]`). -/
def dotProduct (a b : List ℚ) : ℚ :=
  (List.zip a b).foldl (fun acc p => acc + p.1 * p.2) 0

/-- Sum of squares accumulated by the loop of `CalculateSimilarity`
(`norm1 += embedding1[i] * embedding1[i]`, before the `sqrt` is taken). -/
def sumSquares (a : List ℚ) : ℚ :=
  a.foldl (fun acc v => acc + v * v) 0

/-- `CalculateSimilarity` of the embedding service: cosine similarity between
two embeddings.  Dimension mismatch and empty input are errors; if either
computed norm is zero the result is `0` with no error; otherwise
`dot / (norm1 * norm2)` where the norms go through the hand-rolled `sqrt`. -/
def CalculateSimilarity (embedding1 embedding2 : List ℚ) : Except String ℚ :=
  if embedding1.length ≠ embedding2.length then
    .error "embedding dimensions do not match"
  else if embedding1.length = 0 then
    .error "embeddings cannot be empty"
  else
    let dot := dotProduct embedding1 embedding2
    let norm1 := sqrt (sumSquares embedding1)
    let norm2 := sqrt (sumSquares embedding2)
    if norm1 = 0 ∨ norm2 = 0 then .ok 0
    else .ok (dot / (norm1 * norm2))

/-- The matching service of `matching.go` (`services.MatchingService`), seen
through the capabilities the ranking pipeline calls: `calcSim` models
`embeddingService.CalculateSimilarity` (instantiated with
`CalculateSimilarity` above when the claim depends on its behaviour),
`calcDist` models the `calculateDistance` method (its concrete haversine body,
which calls transcendental library functions, is embedded separately over `ℝ`
below) and `calcDistScore` models `calculateDistanceScore`
(`exp(-distanceKm/10)`, likewise transcendental).  Keeping the two
transcendental scorers as fields keeps the ranking pipeline computable; the
ranking claims are proved for every value of these fields. -/
structure MatchingService (α : Type) where
  calcSim : List α → List α → Except String α
  calcDist : Location α → Location α → α
  calcDistScore : α → α

/-- The body of the candidate loop of `FindMatchesForNeed` for one volunteer:
skip (`continue`) when the volunteer has no embedding or the similarity
computation fails, otherwise build the combined score and materialize a
`Match` only when it exceeds the `0.3` threshold. -/
def matchOfVolunteer [LinearOrderedField α] (m : MatchingService α) (need : Need α)
    (volunteer : Volunteer α) : Option (Match α) :=
  if volunteer.embedding.length = 0 then none
  else
    match m.calcSim need.embedding volunteer.embedding with
    | .error _ => none
    | .ok similarity =>
      let distance := m.calcDist need.location volunteer.location
      let distanceScore := m.calcDistScore distance
      let combinedScore := similarity * distanceScore
      if combinedScore > 3 / 10 then
        some { needId := need.id, volunteerId := volunteer.id,
               score := combinedScore, distance := distance }
      else none

/-- The body of the candidate loop of `FindMatchesForVolunteer` for one need:
the similarity call is `CalculateSimilarity(volunteer.Embedding,
need.Embedding)` and the distance call is
`calculateDistance(need.Location, volunteer.Location)`. -/
def matchOfNeed [LinearOrderedField α] (m : MatchingService α) (volunteer : Volunteer α)
    (need : Need α) : Option (Match α) :=
  if need.embedding.length = 0 then none
  else
    match m.calcSim volunteer.embedding need.embedding with
    | .error _ => none
    | .ok similarity =>
      let distance := m.calcDist need.location volunteer.location
      let distanceScore := m.calcDistScore distance
      let combinedScore := similarity * distanceScore
      if combinedScore > 3 / 10 then
        some { needId := need.id, volunteerId := volunteer.id,
               score := combinedScore, distance := distance }
      else none

/-- The comparison function passed to `sort.Slice` in both ranking passes:
`matches[i].Score > matches[j].Score`. -/
def scoreGreater [LinearOrderedField α] (mi mj : Match α) : Bool :=
  decide (mj.score < mi.score)

/-- Insertion of one element into the already-sorted segment, modelling the
inner loop of the insertion sort that Go's `sort.Slice` runs (the element is
moved left past exactly the elements `y` with `less x y`; scanning the sorted
segment from the left with the same comparison places it identically). -/
def insertRanked (less : β → β → Bool) (x : β) : List β → List β
  | [] => [x]
  | y :: ys => if less x y then x :: y :: ys else y :: insertRanked less x ys

/-- `sort.Slice(matches, less)` of the ranking passes.  Go's sort runs an
insertion sort on ranges of at most 12 elements and an unstable pattern-defeat
quicksort above that; this model fixes the insertion-sort realization (exact
for the sorted order in general, and exact element-for-element for the small
slices on which the tie-order facts below are stated). -/
def sortSlice (less : β → β → Bool) (l : List β) : List β :=
  l.foldl (fun acc x => insertRanked less x acc) []

/-- `FindMatchesForNeed` of `matching.go`: default the limit to 10 when
non-positive, abort when the candidate-pool fetch failed (wrapping the error
as `failed to get volunteers: ...`), otherwise score every volunteer, sort by
descending score and truncate to the limit.  The pool fetched by
`getActiveVolunteers` (a Mongo query) is passed in as its result. -/
def FindMatchesForNeed [LinearOrderedField α] (m : MatchingService α) (need : Need α)
    (volunteersRes : Except String (List (Volunteer α))) (limit : Int) :
    Except String (List (Match α)) :=
  let limit := if limit ≤ 0 then 10 else limit
  match volunteersRes with
  | .error e => .error ("failed to get volunteers: " ++ e)
  | .ok volunteers =>
    let matchList := volunteers.filterMap (matchOfVolunteer m need)
    let sorted := sortSlice scoreGreater matchList
    .ok (sorted.take limit.toNat)

/-- `FindMatchesForVolunteer` of `matching.go`, symmetric to
`FindMatchesForNeed` over the pool fetched by `getActiveNeeds` (wrapping a
fetch error as `failed to get needs: ...`). -/
def FindMatchesForVolunteer [LinearOrderedField α] (m : MatchingService α)
    (volunteer : Volunteer α) (needsRes : Except String (List (Need α))) (limit : Int) :
    Except String (List (Match α)) :=
  let limit := if limit ≤ 0 then 10 else limit
  match needsRes with
  | .error e => .error ("failed to get needs: " ++ e)
  | .ok needs =>
    let matchList := needs.filterMap (matchOfNeed m volunteer)
    let sorted := sortSlice scoreGreater matchList
    .ok (sorted.take limit.toNat)

/-- Origin location used by the concrete fixtures. -/
def loc0 : Location ℚ := { latitude := 0, longitude := 0 }

/-- Concrete matching service over `ℚ`: the real similarity scorer, and
constant distance capabilities (distance 0, decay score 1, the values the real
scorers take at coincident points). -/
def svcQ : MatchingService ℚ :=
  { calcSim := CalculateSimilarity, calcDist := fun _ _ => 0, calcDistScore := fun _ => 1 }

/-- Concrete need fixture. -/
def needA : Need ℚ := { id := "need1", userId := "user1", embedding := [1], location := loc0 }

/-- Concrete volunteer fixtures. -/
def volA : Volunteer ℚ := { id := "vol1", userId := "user2", embedding := [1], location := loc0 }

/-- Second concrete volunteer fixture. -/
def volB : Volunteer ℚ := { id := "vol2", userId := "user3", embedding := [1], location := loc0 }

/-- The match that `svcQ` produces for `needA` and `volA`. -/
def matchA : Match ℚ := { needId := "need1", volunteerId := "vol1", score := 1, distance := 0 }

/-- Volunteer fixture named `"b"`, listed in the pool before `"a"`. -/
def volTieB : Volunteer ℚ := { id := "b", userId := "user4", embedding := [1], location := loc0 }

/-- Volunteer fixture named `"a"`, listed in the pool after `"b"`. -/
def volTieA : Volunteer ℚ := { id := "a", userId := "user5", embedding := [1], location := loc0 }

/-- The match produced for `volTieB`. -/
def matchTieB : Match ℚ := { needId := "need1", volunteerId := "b", score := 1, distance := 0 }

/-- The match produced for `volTieA`. -/
def matchTieA : Match ℚ := { needId := "need1", volunteerId := "a", score := 1, distance := 0 }

/-- Message envelope from `internal/models` (`models.WebSocketMessage`):
`{type, payload, userId}`.  The `interface{}` payload is used by the hub only
as a `map[string]interface{}` of string values, modelled as an association
list. -/
structure WebSocketMessage where
  type : String
  payload : List (String × String)
  userId : String := ""
  deriving Repr, DecidableEq

/-- A connected client from `websocket.go` (`services.WebSocketClient`): the
connection identity, the owning user identity, and the bounded outbound
channel `Send`, modelled as its queued contents plus its capacity (256 in
`HandleWebSocket`, which creates the channel).  The raw `Conn` transport and
the back-pointer to the service are not data the verified operations read.
The queue holds the `json.Marshal`ed message; marshaling is modelled by
storing the message value itself (it never fails on the payloads above). -/
structure WebSocketClient where
  id : String
  userId : String
  send : List WebSocketMessage
  capacity : Nat
  deriving Repr, DecidableEq

/-- The hub from `websocket.go` (`services.WebSocketService`): the registry
`clients` (a map keyed by connection id, modelled as a list whose `id`s are
distinct where a claim needs the map property).  The register/unregister
channels and the mutex serialize access and carry no further state. -/
structure WebSocketService where
  clients : List WebSocketClient
  deriving Repr, DecidableEq

/-- One `select {case client.Send <- data: default: close(client.Send);
delete(ws.clients, client.ID)}` attempt, the delivery step shared by
`broadcastMessage`, `SendToUser` and `SendToMultipleUsers`: enqueue when the
bounded channel has room, otherwise evict (`none` = closed and removed). -/
def deliverTo (data : WebSocketMessage) (client : WebSocketClient) : Option WebSocketClient :=
  if client.send.length < client.capacity then
    some { client with send := client.send ++ [data] }
  else none

/-- `broadcastMessage` of `websocket.go`: attempt delivery to every
registered client, evicting those whose queue is full. -/
def broadcastMessage (ws : WebSocketService) (message : WebSocketMessage) : WebSocketService :=
  { clients := ws.clients.filterMap (deliverTo message) }

/-- `SendToUser` of `websocket.go`: attempt delivery to every client whose
`UserID` matches, leaving the rest untouched. -/
def SendToUser (ws : WebSocketService) (userID : String) (message : WebSocketMessage) :
    WebSocketService :=
  { clients := ws.clients.filterMap (fun c =>
      if c.userId = userID then deliverTo message c else some c) }

/-- `IsUserConnected` of `websocket.go`. -/
def IsUserConnected (ws : WebSocketService) (userID : String) : Bool :=
  ws.clients.any (fun c => c.userId = userID)

/-- `NotifyNeedAccepted` of `websocket.go`: builds the `need_accepted`
envelope and — as in the source — passes the *need* id, not the need owner's
user id, to `SendToUser`. -/
def NotifyNeedAccepted (ws : WebSocketService) (needID volunteerID volunteerName : String) :
    WebSocketService :=
  let message : WebSocketMessage :=
    { type := "need_accepted",
      payload := [("need_id", needID), ("volunteer_id", volunteerID),
        ("volunteer_name", volunteerName)] }
  SendToUser ws needID message

/-- Go's `math.Atan2` on real (non-NaN, unsigned-zero) arguments: the
arctangent of `y/x` placed in the quadrant of `(x, y)`. -/
noncomputable def atan2 (y x : ℝ) : ℝ :=
  if 0 < x then Real.arctan (y / x)
  else if x < 0 ∧ 0 ≤ y then Real.arctan (y / x) + Real.pi
  else if x < 0 then Real.arctan (y / x) - Real.pi
  else if 0 < y then Real.pi / 2
  else if y < 0 then -(Real.pi / 2)
  else 0

/-- `calculateDistance` of `matching.go`: haversine great-circle distance in
meters on a sphere of radius 6371000, via `math.Sin`, `math.Cos`,
`math.Sqrt` and `math.Atan2`, modelled over `ℝ`. -/
noncomputable def calculateDistance (loc1 loc2 : Location ℝ) : ℝ :=
  let lat1 := loc1.latitude * Real.pi / 180
  let lon1 := loc1.longitude * Real.pi / 180
  let lat2 := loc2.latitude * Real.pi / 180
  let lon2 := loc2.longitude * Real.pi / 180
  let dlat := lat2 - lat1
  let dlon := lon2 - lon1
  let a := Real.sin (dlat / 2) * Real.sin (dlat / 2) +
    Real.cos lat1 * Real.cos lat2 * Real.sin (dlon / 2) * Real.sin (dlon / 2)
  let c := 2 * atan2 (Real.sqrt a) (Real.sqrt (1 - a))
  6371000 * c

/-- One-component vector with squared norm `2^26`; ten Newton iterations from
`z = 2^26` stop near `2^16`, far above the true square root `2^13`. -/
def bigVec : List ℚ := [8192]

/-- Volunteer whose two-component embedding mismatches `needA`'s, so the
similarity scorer fails on it. -/
def badVol : Volunteer ℚ := { id := "volX", userId := "user9", embedding := [1, 2], location := loc0 }

/-- Need whose two-component embedding mismatches `volA`'s. -/
def badNeed : Need ℚ := { id := "needX", userId := "user8", embedding := [1, 2], location := loc0 }

/-- Need fixture with an absent embedding. -/
def emptyNeed : Need ℚ := { id := "needE", userId := "userE", embedding := [], location := loc0 }

/-- Volunteer fixture with an absent embedding. -/
def emptyVol : Volunteer ℚ := { id := "volE", userId := "userF", embedding := [], location := loc0 }

/-- The `need_accepted` envelope that `NotifyNeedAccepted` builds for need
`"need1"` and volunteer `"vol1"`. -/
def acceptedMsg : WebSocketMessage :=
  { type := "need_accepted",
    payload := [("need_id", "need1"), ("volunteer_id", "vol1"),
      ("volunteer_name", "Volunteer")] }

/-- The need creator's connection: owned by `"user1"`, the owner of `needA`. -/
def creatorClient : WebSocketClient := { id := "c1", userId := "user1", send := [], capacity := 256 }

/-- A connection whose owning user identity happens to equal the need's id. -/
def rogueClient : WebSocketClient := { id := "c2", userId := "need1", send := [], capacity := 256 }

/-- A hub registering the creator's connection and the rogue connection. -/
def hubC3 : WebSocketService := { clients := [creatorClient, rogueClient] }

/-- A liveness ping filling slots of a full queue in the fixtures below. -/
def pingMsg : WebSocketMessage := { type := "connected", payload := [] }

/-- A connection whose 256-slot outbound queue is completely full. -/
def fullClient : WebSocketClient :=
  { id := "cFull", userId := "userFull", send := List.replicate 256 pingMsg, capacity := 256 }

/-- A connection with a free outbound queue. -/
def okClient : WebSocketClient := { id := "cOk", userId := "userOk", send := [], capacity := 256 }

/-- Hub fixture with one full connection and one free connection. -/
def hubC6 : WebSocketService := { clients := [fullClient, okClient] }

/-- Broadcast payload fixture. -/
def needMsg : WebSocketMessage := { type := "new_need", payload := [("need_id", "need1")] }

/-- Second broadcast payload fixture. -/
def matchMsg : WebSocketMessage := { type := "new_match", payload := [] }

/-- A connection of user `"user7"` whose 256-slot queue is full. -/
def fullClient7 : WebSocketClient :=
  { id := "c7", userId := "user7", send := List.replicate 256 pingMsg, capacity := 256 }

/-- Hub fixture whose only connection is `fullClient7`. -/
def hubC7 : WebSocketService := { clients := [fullClient7] }

theorem insertRanked_perm (less : β → β → Bool) (x : β) :
    ∀ l : List β, List.Perm (insertRanked less x l) (x :: l)
  | [] => by simp [insertRanked]
  | y :: ys => by
    by_cases h : less x y
    · simp [insertRanked, h]
    · simp only [insertRanked, h, Bool.false_eq_true, if_false]
      exact ((insertRanked_perm less x ys).cons y).trans (List.Perm.swap x y ys)

theorem foldl_insertRanked_perm (less : β → β → Bool) :
    ∀ l acc : List β, List.Perm (l.foldl (fun a x => insertRanked less x a) acc) (acc ++ l)
  | [], acc => by simp
  | x :: xs, acc => by
    simp only [List.foldl_cons]
    refine (foldl_insertRanked_perm less xs (insertRanked less x acc)).trans ?_
    refine ((insertRanked_perm less x acc).append_right xs).trans ?_
    simpa using List.perm_middle.symm

theorem sortSlice_perm (less : β → β → Bool) (l : List β) : List.Perm (sortSlice less l) l := by
  simpa using foldl_insertRanked_perm less l []

theorem insertRanked_sorted [LinearOrderedField α] (x : Match α) :
    ∀ l : List (Match α), l.Pairwise (fun a b => b.score ≤ a.score) →
      (insertRanked scoreGreater x l).Pairwise (fun a b => b.score ≤ a.score)
  | [], _ => by simp [insertRanked]
  | y :: ys, h => by
    rcases List.pairwise_cons.mp h with ⟨hy, hys⟩
    by_cases hxy : scoreGreater x y
    · have hlt : y.score < x.score := of_decide_eq_true hxy
      simp only [insertRanked, hxy, if_true]
      refine List.pairwise_cons.mpr ⟨?_, h⟩
      intro z hz
      rcases List.mem_cons.mp hz with rfl | hz
      · exact le_of_lt hlt
      · exact le_trans (hy z hz) (le_of_lt hlt)
    · have hle : x.score ≤ y.score := by
        have := of_decide_eq_false (Bool.not_eq_true _ ▸ hxy : decide (y.score < x.score) = false)
        exact not_lt.mp this
      simp only [insertRanked, hxy, Bool.false_eq_true, if_false]
      refine List.pairwise_cons.mpr ⟨?_, insertRanked_sorted x ys hys⟩
      intro z hz
      have hz2 : z = x ∨ z ∈ ys := by
        simpa using (insertRanked_perm scoreGreater x ys).mem_iff.mp hz
      rcases hz2 with rfl | hz2
      · exact hle
      · exact hy z hz2

theorem foldl_insertRanked_sorted [LinearOrderedField α] :
    ∀ l acc : List (Match α), acc.Pairwise (fun a b => b.score ≤ a.score) →
      (l.foldl (fun a x => insertRanked scoreGreater x a) acc).Pairwise
        (fun a b => b.score ≤ a.score)
  | [], _, h => h
  | x :: xs, acc, h =>
    foldl_insertRanked_sorted xs (insertRanked scoreGreater x acc) (insertRanked_sorted x acc h)

theorem sortSlice_sorted [LinearOrderedField α] (l : List (Match α)) :
    (sortSlice scoreGreater l).Pairwise (fun a b => b.score ≤ a.score) :=
  foldl_insertRanked_sorted l [] (List.Pairwise.nil)

theorem matchOfVolunteer_spec [LinearOrderedField α] {m : MatchingService α} {need : Need α}
    {v : Volunteer α} {mt : Match α} (h : matchOfVolunteer m need v = some mt) :
    3 / 10 < mt.score ∧ mt.needId = need.id ∧ mt.volunteerId = v.id := by
  by_cases h0 : v.embedding.length = 0
  · simp [matchOfVolunteer, h0] at h
  · rcases hs : m.calcSim need.embedding v.embedding with e | sim
    · simp [matchOfVolunteer, h0, hs] at h
    · by_cases hc :
        3 / 10 < sim * m.calcDistScore (m.calcDist need.location v.location)
      · simp only [matchOfVolunteer, h0, if_false, hs, gt_iff_lt, hc, if_true,
          Option.some.injEq] at h
        subst h
        exact ⟨hc, rfl, rfl⟩
      · simp [matchOfVolunteer, h0, hs, hc] at h

theorem matchOfNeed_spec [LinearOrderedField α] {m : MatchingService α} {v : Volunteer α}
    {need : Need α} {mt : Match α} (h : matchOfNeed m v need = some mt) :
    3 / 10 < mt.score ∧ mt.needId = need.id ∧ mt.volunteerId = v.id := by
  by_cases h0 : need.embedding.length = 0
  · simp [matchOfNeed, h0] at h
  · rcases hs : m.calcSim v.embedding need.embedding with e | sim
    · simp [matchOfNeed, h0, hs] at h
    · by_cases hc :
        3 / 10 < sim * m.calcDistScore (m.calcDist need.location v.location)
      · simp only [matchOfNeed, h0, if_false, hs, gt_iff_lt, hc, if_true,
          Option.some.injEq] at h
        subst h
        exact ⟨hc, rfl, rfl⟩
      · simp [matchOfNeed, h0, hs, hc] at h

theorem FindMatchesForNeed_ok_eq [LinearOrderedField α] (m : MatchingService α)
    (need : Need α) (vols : List (Volunteer α)) (limit : Int) :
    FindMatchesForNeed m need (.ok vols) limit =
      .ok ((sortSlice scoreGreater (vols.filterMap (matchOfVolunteer m need))).take
        (if limit ≤ 0 then (10 : Int) else limit).toNat) := rfl

theorem FindMatchesForVolunteer_ok_eq [LinearOrderedField α] (m : MatchingService α)
    (v : Volunteer α) (needs : List (Need α)) (limit : Int) :
    FindMatchesForVolunteer m v (.ok needs) limit =
      .ok ((sortSlice scoreGreater (needs.filterMap (matchOfNeed m v))).take
        (if limit ≤ 0 then (10 : Int) else limit).toNat) := rfl

/-- C1: for every need, candidate pool and limit, every Match in the list
returned by `FindMatchesForNeed` (and symmetrically `FindMatchesForVolunteer`)
has score strictly greater than 0.3, the list is sorted in descending order of
score, and its length is at most the limit, where the limit is replaced by 10
whenever the caller passes a value ≤ 0. -/
theorem matchRanker_threshold_sorted_limit [LinearOrderedField α]
    (m : MatchingService α) (need : Need α) (volunteer : Volunteer α)
    (vols : List (Volunteer α)) (needs : List (Need α)) (limit : Int)
    (resN resV : List (Match α))
    (hN : FindMatchesForNeed m need (.ok vols) limit = .ok resN)
    (hV : FindMatchesForVolunteer m volunteer (.ok needs) limit = .ok resV) :
    ((∀ mt ∈ resN, 3 / 10 < mt.score) ∧
      resN.Pairwise (fun a b => b.score ≤ a.score) ∧
      resN.length ≤ (if limit ≤ 0 then (10 : Int) else limit).toNat) ∧
    ((∀ mt ∈ resV, 3 / 10 < mt.score) ∧
      resV.Pairwise (fun a b => b.score ≤ a.score) ∧
      resV.length ≤ (if limit ≤ 0 then (10 : Int) else limit).toNat) := by
  rw [FindMatchesForNeed_ok_eq, Except.ok.injEq] at hN
  rw [FindMatchesForVolunteer_ok_eq, Except.ok.injEq] at hV
  subst hN
  subst hV
  refine ⟨⟨?_, ?_, ?_⟩, ?_, ?_, ?_⟩
  · intro mt hmt
    have h1 : mt ∈ sortSlice scoreGreater (vols.filterMap (matchOfVolunteer m need)) :=
      List.take_subset _ _ hmt
    have h2 : mt ∈ vols.filterMap (matchOfVolunteer m need) :=
      (sortSlice_perm scoreGreater _).mem_iff.mp h1
    rcases List.mem_filterMap.mp h2 with ⟨v, _, hv⟩
    exact (matchOfVolunteer_spec hv).1
  · exact List.Pairwise.sublist (List.take_sublist _ _) (sortSlice_sorted _)
  · exact List.length_take_le _ _
  · intro mt hmt
    have h1 : mt ∈ sortSlice scoreGreater (needs.filterMap (matchOfNeed m volunteer)) :=
      List.take_subset _ _ hmt
    have h2 : mt ∈ needs.filterMap (matchOfNeed m volunteer) :=
      (sortSlice_perm scoreGreater _).mem_iff.mp h1
    rcases List.mem_filterMap.mp h2 with ⟨nd, _, hnd⟩
    exact (matchOfNeed_spec hnd).1
  · exact List.Pairwise.sublist (List.take_sublist _ _) (sortSlice_sorted _)
  · exact List.length_take_le _ _

theorem filter_insertRanked_sorted [LinearOrderedField α] (s : α) (x : Match α) :
    ∀ l : List (Match α), l.Pairwise (fun a b => b.score ≤ a.score) →
      (insertRanked scoreGreater x l).filter (fun mt => decide (mt.score = s)) =
        l.filter (fun mt => decide (mt.score = s)) ++ (if x.score = s then [x] else [])
  | [], _ => by by_cases h : x.score = s <;> simp [insertRanked, h]
  | y :: ys, h => by
    rcases List.pairwise_cons.mp h with ⟨hy, hys⟩
    by_cases hxy : scoreGreater x y
    · have hlt : y.score < x.score := of_decide_eq_true hxy
      simp only [insertRanked, hxy, if_true]
      by_cases hxs : x.score = s
      · have hnil : (y :: ys).filter (fun mt => decide (mt.score = s)) = [] := by
          refine List.filter_eq_nil_iff.mpr ?_
          intro z hz
          have hzle : z.score ≤ y.score := by
            rcases List.mem_cons.mp hz with rfl | hz2
            · exact le_refl _
            · exact hy z hz2
          have hne : z.score ≠ s := ne_of_lt (hxs ▸ lt_of_le_of_lt hzle hlt)
          simpa using hne
        simp [List.filter_cons, hxs, hnil]
      · simp [List.filter_cons, hxs]
    · simp only [insertRanked, hxy, Bool.false_eq_true, if_false]
      rw [List.filter_cons, List.filter_cons, filter_insertRanked_sorted s x ys hys]
      by_cases hys2 : y.score = s <;> simp [hys2]

theorem filter_foldl_insertRanked [LinearOrderedField α] (s : α) :
    ∀ l acc : List (Match α), acc.Pairwise (fun a b => b.score ≤ a.score) →
      (l.foldl (fun a x => insertRanked scoreGreater x a) acc).filter
          (fun mt => decide (mt.score = s)) =
        acc.filter (fun mt => decide (mt.score = s)) ++
          l.filter (fun mt => decide (mt.score = s))
  | [], acc, _ => by simp
  | x :: xs, acc, h => by
    simp only [List.foldl_cons]
    rw [filter_foldl_insertRanked s xs _ (insertRanked_sorted x acc h),
      filter_insertRanked_sorted s x acc h, List.filter_cons]
    by_cases hx : x.score = s <;> simp [hx, List.append_assoc]

/-- Stability of the score sort: for each score value, the equal-score matches
come out of `sortSlice` in exactly the order they went in. -/
theorem sortSlice_filter_score [LinearOrderedField α] (s : α) (l : List (Match α)) :
    (sortSlice scoreGreater l).filter (fun mt => decide (mt.score = s)) =
      l.filter (fun mt => decide (mt.score = s)) := by
  simpa using filter_foldl_insertRanked s l [] List.Pairwise.nil

theorem matchRanker_threshold_sorted_limit_witness :
    ((∀ mt ∈ [matchA], 3 / 10 < mt.score) ∧
      ([matchA] : List (Match ℚ)).Pairwise (fun a b => b.score ≤ a.score) ∧
      ([matchA] : List (Match ℚ)).length ≤ (if (1 : Int) ≤ 0 then (10 : Int) else 1).toNat) ∧
    ((∀ mt ∈ [matchA], 3 / 10 < mt.score) ∧
      ([matchA] : List (Match ℚ)).Pairwise (fun a b => b.score ≤ a.score) ∧
      ([matchA] : List (Match ℚ)).length ≤ (if (1 : Int) ≤ 0 then (10 : Int) else 1).toNat) :=
  matchRanker_threshold_sorted_limit svcQ needA volA [volA, volB] [needA] 1 [matchA] [matchA]
    (by with_unfolding_all decide) (by with_unfolding_all decide)

/-- C4 counterexample: two identical candidates (same embedding, same
location) necessarily tie on combinedScore and distance under any scorer, yet
the ranker returns them in candidate-pool order — here identity `"b"` before
identity `"a"` — not in ascending identity order.  So equal-score matches are
not ordered by ascending distance then ascending identity. -/
theorem tieBreak_counterexample :
    FindMatchesForNeed svcQ needA (.ok [volTieB, volTieA]) 10 =
      .ok [matchTieB, matchTieA] ∧
    matchTieB.score = matchTieA.score ∧
    matchTieB.distance = matchTieA.distance ∧
    matchTieA.volunteerId < matchTieB.volunteerId := by
  exact ⟨by with_unfolding_all decide, by with_unfolding_all decide,
    by with_unfolding_all decide, by with_unfolding_all decide⟩

/-- C4 (amended): the ranker sorts by combinedScore only; matches with equal
combinedScore keep the relative order in which the candidate pool produced
them (the sort is stable), regardless of their distances or identities, and
the returned list is an initial segment of that stable ordering.  The output
is a deterministic function of the input pool (ranking is pure), but ties are
not reordered by ascending distance or ascending identity. -/
theorem tieBreak_stable_pool_order [LinearOrderedField α]
    (m : MatchingService α) (need : Need α) (volunteer : Volunteer α)
    (vols : List (Volunteer α)) (needs : List (Need α)) (limit : Int)
    (resN resV : List (Match α)) (s : α)
    (hN : FindMatchesForNeed m need (.ok vols) limit = .ok resN)
    (hV : FindMatchesForVolunteer m volunteer (.ok needs) limit = .ok resV) :
    (resN.Pairwise (fun a b => b.score ≤ a.score) ∧
      ∃ rest, (vols.filterMap (matchOfVolunteer m need)).filter
          (fun mt => decide (mt.score = s)) =
        resN.filter (fun mt => decide (mt.score = s)) ++ rest) ∧
    (resV.Pairwise (fun a b => b.score ≤ a.score) ∧
      ∃ rest, (needs.filterMap (matchOfNeed m volunteer)).filter
          (fun mt => decide (mt.score = s)) =
        resV.filter (fun mt => decide (mt.score = s)) ++ rest) := by
  rw [FindMatchesForNeed_ok_eq, Except.ok.injEq] at hN
  rw [FindMatchesForVolunteer_ok_eq, Except.ok.injEq] at hV
  subst hN
  subst hV
  constructor
  · refine ⟨List.Pairwise.sublist (List.take_sublist _ _) (sortSlice_sorted _), ?_⟩
    refine ⟨(List.drop ((if limit ≤ 0 then (10 : Int) else limit).toNat)
      (sortSlice scoreGreater (vols.filterMap (matchOfVolunteer m need)))).filter
        (fun mt => decide (mt.score = s)), ?_⟩
    rw [← sortSlice_filter_score s, ← List.filter_append, List.take_append_drop]
  · refine ⟨List.Pairwise.sublist (List.take_sublist _ _) (sortSlice_sorted _), ?_⟩
    refine ⟨(List.drop ((if limit ≤ 0 then (10 : Int) else limit).toNat)
      (sortSlice scoreGreater (needs.filterMap (matchOfNeed m volunteer)))).filter
        (fun mt => decide (mt.score = s)), ?_⟩
    rw [← sortSlice_filter_score s, ← List.filter_append, List.take_append_drop]

theorem tieBreak_stable_pool_order_witness :
    (([matchTieB, matchTieA] : List (Match ℚ)).Pairwise (fun a b => b.score ≤ a.score) ∧
      ∃ rest, ([volTieB, volTieA].filterMap (matchOfVolunteer svcQ needA)).filter
          (fun mt => decide (mt.score = (1 : ℚ))) =
        ([matchTieB, matchTieA] : List (Match ℚ)).filter
          (fun mt => decide (mt.score = (1 : ℚ))) ++ rest) ∧
    (([matchA] : List (Match ℚ)).Pairwise (fun a b => b.score ≤ a.score) ∧
      ∃ rest, ([needA].filterMap (matchOfNeed svcQ volA)).filter
          (fun mt => decide (mt.score = (1 : ℚ))) =
        ([matchA] : List (Match ℚ)).filter (fun mt => decide (mt.score = (1 : ℚ))) ++ rest) :=
  tieBreak_stable_pool_order svcQ needA volA [volTieB, volTieA] [needA] 10
    [matchTieB, matchTieA] [matchA] 1
    (by with_unfolding_all decide) (by with_unfolding_all decide)

/-- C9: `calculateDistance` is symmetric in its two locations, and is zero on
identical locations. -/
theorem calculateDistance_symm_self :
    (∀ a b : Location ℝ, calculateDistance a b = calculateDistance b a) ∧
    (∀ p : Location ℝ, calculateDistance p p = 0) := by
  constructor
  · intro a b
    simp only [calculateDistance]
    have h1 : Real.sin ((a.latitude * Real.pi / 180 - b.latitude * Real.pi / 180) / 2) =
        -Real.sin ((b.latitude * Real.pi / 180 - a.latitude * Real.pi / 180) / 2) := by
      rw [← Real.sin_neg]
      congr 1
      ring
    have h2 : Real.sin ((a.longitude * Real.pi / 180 - b.longitude * Real.pi / 180) / 2) =
        -Real.sin ((b.longitude * Real.pi / 180 - a.longitude * Real.pi / 180) / 2) := by
      rw [← Real.sin_neg]
      congr 1
      ring
    have hA :
        Real.sin ((a.latitude * Real.pi / 180 - b.latitude * Real.pi / 180) / 2) *
            Real.sin ((a.latitude * Real.pi / 180 - b.latitude * Real.pi / 180) / 2) +
          Real.cos (b.latitude * Real.pi / 180) * Real.cos (a.latitude * Real.pi / 180) *
              Real.sin ((a.longitude * Real.pi / 180 - b.longitude * Real.pi / 180) / 2) *
            Real.sin ((a.longitude * Real.pi / 180 - b.longitude * Real.pi / 180) / 2) =
        Real.sin ((b.latitude * Real.pi / 180 - a.latitude * Real.pi / 180) / 2) *
            Real.sin ((b.latitude * Real.pi / 180 - a.latitude * Real.pi / 180) / 2) +
          Real.cos (a.latitude * Real.pi / 180) * Real.cos (b.latitude * Real.pi / 180) *
              Real.sin ((b.longitude * Real.pi / 180 - a.longitude * Real.pi / 180) / 2) *
            Real.sin ((b.longitude * Real.pi / 180 - a.longitude * Real.pi / 180) / 2) := by
      rw [h1, h2]
      ring
    rw [hA]
  · intro p
    simp [calculateDistance, atan2, sub_self, zero_div, Real.sin_zero, Real.sqrt_zero,
      Real.sqrt_one, Real.arctan_zero]

theorem foldl_squares_of_zero :
    ∀ l : List ℚ, (∀ x ∈ l, x = 0) → ∀ acc : ℚ, l.foldl (fun acc v => acc + v * v) acc = acc
  | [], _, _ => rfl
  | x :: xs, h, acc => by
    have hx : x = 0 := h x (List.mem_cons_self x xs)
    have hxs : ∀ y ∈ xs, y = 0 := fun y hy => h y (List.mem_cons_of_mem x hy)
    have hacc : acc + x * x = acc := by rw [hx]; ring
    rw [List.foldl_cons, hacc]
    exact foldl_squares_of_zero xs hxs acc

theorem sumSquares_of_zero {l : List ℚ} (h : ∀ x ∈ l, x = 0) : sumSquares l = 0 :=
  foldl_squares_of_zero l h 0

theorem sqrt_zero : sqrt 0 = 0 := by
  unfold sqrt
  rw [if_pos le_rfl]

/-- C5: `CalculateSimilarity` fails with the dimension-mismatch error whenever
the two vectors have different lengths; and on equal-length non-empty vectors
at least one of which is the zero vector (so its computed norm is zero), it
returns 0 with no error. -/
theorem similarity_mismatch_error_and_zero_norm_ok
    (a b za zb : List ℚ) (hab : a.length ≠ b.length)
    (hlen : za.length = zb.length) (hne : za.length ≠ 0)
    (hzero : (∀ x ∈ za, x = 0) ∨ (∀ x ∈ zb, x = 0)) :
    CalculateSimilarity a b = .error "embedding dimensions do not match" ∧
    CalculateSimilarity za zb = .ok 0 := by
  refine ⟨by simp [CalculateSimilarity, hab], ?_⟩
  have hnorm : sqrt (sumSquares za) = 0 ∨ sqrt (sumSquares zb) = 0 := by
    rcases hzero with h | h
    · exact Or.inl (by rw [sumSquares_of_zero h, sqrt_zero])
    · exact Or.inr (by rw [sumSquares_of_zero h, sqrt_zero])
  have h1 : ¬ za.length ≠ zb.length := not_not.mpr hlen
  simp only [CalculateSimilarity]
  rw [if_neg h1, if_neg hne, if_pos hnorm]

theorem similarity_witness_c5 :
    CalculateSimilarity [1] [1, 2] = .error "embedding dimensions do not match" ∧
    CalculateSimilarity [0, 0] [3, 4] = .ok 0 :=
  similarity_mismatch_error_and_zero_norm_ok [1] [1, 2] [0, 0] [3, 4]
    (by decide) (by decide) (by decide) (Or.inl (by decide))

/-- C2 evidence: on the non-zero vector `bigVec = [8192]`, `CalculateSimilarity`
applied to the vector and itself succeeds but returns a value below `1/10` —
nowhere near the 1.0 the self-similarity property promises — because the
hand-rolled `sqrt` has not converged after its fixed 10 Newton iterations. -/
theorem similarity_self_far_from_one :
    (CalculateSimilarity bigVec bigVec).isOk = true ∧
    (CalculateSimilarity bigVec bigVec).toOption.getD 0 < 1 / 10 := by
  constructor
  · with_unfolding_all decide
  · with_unfolding_all decide

theorem matchOfVolunteer_of_simFail [LinearOrderedField α] {m : MatchingService α}
    {need : Need α} {bad : Volunteer α}
    (h : (m.calcSim need.embedding bad.embedding).isOk = false) :
    matchOfVolunteer m need bad = none := by
  by_cases h0 : bad.embedding.length = 0
  · simp [matchOfVolunteer, h0]
  · rcases hs : m.calcSim need.embedding bad.embedding with e | s
    · simp [matchOfVolunteer, h0, hs]
    · rw [hs] at h
      simp [Except.isOk, Except.toBool] at h

theorem matchOfNeed_of_simFail [LinearOrderedField α] {m : MatchingService α}
    {volunteer : Volunteer α} {bad : Need α}
    (h : (m.calcSim volunteer.embedding bad.embedding).isOk = false) :
    matchOfNeed m volunteer bad = none := by
  by_cases h0 : bad.embedding.length = 0
  · simp [matchOfNeed, h0]
  · rcases hs : m.calcSim volunteer.embedding bad.embedding with e | s
    · simp [matchOfNeed, h0, hs]
    · rw [hs] at h
      simp [Except.isOk, Except.toBool] at h

/-- C8: a ranking pass returns an error exactly when the candidate-pool fetch
returned an error, and a similarity-scorer failure on an individual candidate
never makes the pass fail: that candidate is dropped and the pass returns
exactly what it returns on the pool without it (all remaining candidates still
scored). -/
theorem ranking_aborts_iff_fetch_fails [LinearOrderedField α]
    (m : MatchingService α) (need : Need α) (volunteer : Volunteer α) (limit : Int)
    (poolN : Except String (List (Volunteer α))) (poolV : Except String (List (Need α)))
    (preN postN : List (Volunteer α)) (badN : Volunteer α)
    (preV postV : List (Need α)) (badV : Need α)
    (hbadN : (m.calcSim need.embedding badN.embedding).isOk = false)
    (hbadV : (m.calcSim volunteer.embedding badV.embedding).isOk = false) :
    ((FindMatchesForNeed m need poolN limit).isOk = poolN.isOk ∧
      (FindMatchesForVolunteer m volunteer poolV limit).isOk = poolV.isOk) ∧
    (FindMatchesForNeed m need (.ok (preN ++ badN :: postN)) limit =
        FindMatchesForNeed m need (.ok (preN ++ postN)) limit ∧
      FindMatchesForVolunteer m volunteer (.ok (preV ++ badV :: postV)) limit =
        FindMatchesForVolunteer m volunteer (.ok (preV ++ postV)) limit) := by
  refine ⟨⟨?_, ?_⟩, ?_, ?_⟩
  · cases poolN <;> simp [FindMatchesForNeed, Except.isOk, Except.toBool]
  · cases poolV <;> simp [FindMatchesForVolunteer, Except.isOk, Except.toBool]
  · have hdrop : (preN ++ badN :: postN).filterMap (matchOfVolunteer m need) =
        (preN ++ postN).filterMap (matchOfVolunteer m need) := by
      simp [List.filterMap_append, List.filterMap_cons, matchOfVolunteer_of_simFail hbadN]
    rw [FindMatchesForNeed_ok_eq, FindMatchesForNeed_ok_eq, hdrop]
  · have hdrop : (preV ++ badV :: postV).filterMap (matchOfNeed m volunteer) =
        (preV ++ postV).filterMap (matchOfNeed m volunteer) := by
      simp [List.filterMap_append, List.filterMap_cons, matchOfNeed_of_simFail hbadV]
    rw [FindMatchesForVolunteer_ok_eq, FindMatchesForVolunteer_ok_eq, hdrop]

theorem ranking_aborts_iff_fetch_fails_witness :
    (((FindMatchesForNeed svcQ needA (.error "db down") 5).isOk =
        (Except.error (α := List (Volunteer ℚ)) "db down").isOk ∧
      (FindMatchesForVolunteer svcQ volA (.ok [needA]) 5).isOk =
        (Except.ok (ε := String) [needA]).isOk) ∧
    (FindMatchesForNeed svcQ needA (.ok ([volA] ++ badVol :: [volB])) 5 =
        FindMatchesForNeed svcQ needA (.ok ([volA] ++ [volB])) 5 ∧
      FindMatchesForVolunteer svcQ volA (.ok ([needA] ++ badNeed :: [])) 5 =
        FindMatchesForVolunteer svcQ volA (.ok ([needA] ++ [])) 5)) :=
  ranking_aborts_iff_fetch_fails svcQ needA volA 5 (.error "db down") (.ok [needA])
    [volA] [volB] badVol [needA] [] badNeed
    (by with_unfolding_all decide) (by with_unfolding_all decide)

/-- C10: when the subject entity carries no embedding, a ranking pass backed
by the real similarity scorer returns an empty list and no error (every
candidate is skipped: those without an embedding by the explicit check, the
rest because the scorer rejects the dimension mismatch against the empty
subject embedding). -/
theorem emptySubjectEmbedding_empty_result
    (cd : Location ℚ → Location ℚ → ℚ) (cds : ℚ → ℚ)
    (need : Need ℚ) (volunteer : Volunteer ℚ)
    (vols : List (Volunteer ℚ)) (needs : List (Need ℚ)) (limit : Int)
    (hneed : need.embedding = []) (hvol : volunteer.embedding = []) :
    FindMatchesForNeed ⟨CalculateSimilarity, cd, cds⟩ need (.ok vols) limit = .ok [] ∧
    FindMatchesForVolunteer ⟨CalculateSimilarity, cd, cds⟩ volunteer (.ok needs) limit =
      .ok [] := by
  constructor
  · have hN : vols.filterMap (matchOfVolunteer ⟨CalculateSimilarity, cd, cds⟩ need) = [] := by
      refine List.filterMap_eq_nil_iff.mpr ?_
      intro v _
      by_cases h0 : v.embedding.length = 0
      · simp [matchOfVolunteer, h0]
      · have hsim : CalculateSimilarity need.embedding v.embedding =
            .error "embedding dimensions do not match" := by
          have hd : need.embedding.length ≠ v.embedding.length := by
            rw [hneed]
            exact fun h => h0 h.symm
          simp [CalculateSimilarity, hd]
        simp [matchOfVolunteer, h0, hsim]
    rw [FindMatchesForNeed_ok_eq, hN]
    simp [sortSlice]
  · have hV : needs.filterMap (matchOfNeed ⟨CalculateSimilarity, cd, cds⟩ volunteer) = [] := by
      refine List.filterMap_eq_nil_iff.mpr ?_
      intro nd _
      by_cases h0 : nd.embedding.length = 0
      · simp [matchOfNeed, h0]
      · have hsim : CalculateSimilarity volunteer.embedding nd.embedding =
            .error "embedding dimensions do not match" := by
          have hd : volunteer.embedding.length ≠ nd.embedding.length := by
            rw [hvol]
            exact fun h => h0 h.symm
          simp [CalculateSimilarity, hd]
        simp [matchOfNeed, h0, hsim]
    rw [FindMatchesForVolunteer_ok_eq, hV]
    simp [sortSlice]

theorem emptySubjectEmbedding_empty_result_witness :
    FindMatchesForNeed ⟨CalculateSimilarity, fun _ _ => 0, fun _ => 1⟩ emptyNeed
      (.ok [volA, emptyVol]) 3 = .ok [] ∧
    FindMatchesForVolunteer ⟨CalculateSimilarity, fun _ _ => 0, fun _ => 1⟩ emptyVol
      (.ok [needA, emptyNeed]) 3 = .ok [] :=
  emptySubjectEmbedding_empty_result (fun _ _ => 0) (fun _ => 1) emptyNeed emptyVol
    [volA, emptyVol] [needA, emptyNeed] 3 rfl rfl

theorem deliverTo_eq_some {d : WebSocketMessage} {x y : WebSocketClient} :
    deliverTo d x = some y ↔
      x.send.length < x.capacity ∧ y = { x with send := x.send ++ [d] } := by
  unfold deliverTo
  split
  · simp [eq_comm]
    intro h
    assumption
  · simp
    intro h
    exact absurd h (by assumption)

/-- C3 evidence: `NotifyNeedAccepted` targets `SendToUser` with the *need id*
instead of the need owner's user id.  On a hub where the owner of `needA`
(user `"user1"`) is connected, the owner's connection receives nothing (its
queue stays empty), while a connection whose user identity equals the need id
receives the notification. -/
theorem notifyNeedAccepted_misses_creator :
    creatorClient.userId = needA.userId ∧
    IsUserConnected hubC3 needA.userId = true ∧
    (NotifyNeedAccepted hubC3 needA.id "vol1" "Volunteer").clients =
      [creatorClient, { rogueClient with send := [acceptedMsg] }] ∧
    creatorClient.send = [] := by
  refine ⟨by with_unfolding_all decide, by with_unfolding_all decide,
    by with_unfolding_all decide, by with_unfolding_all decide⟩

/-- C6: when a message is broadcast and exactly one connection's bounded
outbound queue is full, that connection is evicted from the registry (no
connection with its id remains), while every other registered connection stays
and receives the message, still receives a subsequent broadcast (given room),
and — if the evicted user owns no other connection — `IsUserConnected` then
reports false for them. -/
theorem broadcast_evicts_only_full_connection
    (ws : WebSocketService) (data data2 : WebSocketMessage) (c : WebSocketClient)
    (hmem : c ∈ ws.clients)
    (hids : (ws.clients.map WebSocketClient.id).Nodup)
    (hfull : ¬ c.send.length < c.capacity)
    (hothers : ∀ x ∈ ws.clients, x.id ≠ c.id → x.send.length < x.capacity) :
    (∀ y ∈ (broadcastMessage ws data).clients, y.id ≠ c.id) ∧
    (∀ x ∈ ws.clients, x.id ≠ c.id →
      { x with send := x.send ++ [data] } ∈ (broadcastMessage ws data).clients) ∧
    (∀ x ∈ ws.clients, x.id ≠ c.id → x.send.length + 1 < x.capacity →
      { x with send := x.send ++ [data, data2] } ∈
        (broadcastMessage (broadcastMessage ws data) data2).clients) ∧
    ((∀ x ∈ ws.clients, x.userId = c.userId → x.id = c.id) →
      IsUserConnected (broadcastMessage ws data) c.userId = false) := by
  have hinj := List.inj_on_of_nodup_map hids
  have hstep : ∀ x ∈ ws.clients, x.id ≠ c.id →
      { x with send := x.send ++ [data] } ∈ (broadcastMessage ws data).clients := by
    intro x hx hne
    exact List.mem_filterMap.mpr
      ⟨x, hx, deliverTo_eq_some.mpr ⟨hothers x hx hne, rfl⟩⟩
  refine ⟨?_, hstep, ?_, ?_⟩
  · intro y hy heq
    rcases List.mem_filterMap.mp hy with ⟨x, hx, hdx⟩
    rcases deliverTo_eq_some.mp hdx with ⟨hroom, rfl⟩
    exact hfull (hinj hx hmem heq ▸ hroom)
  · intro x hx hne hroom2
    refine List.mem_filterMap.mpr ⟨{ x with send := x.send ++ [data] },
      hstep x hx hne, deliverTo_eq_some.mpr ⟨?_, ?_⟩⟩
    · simpa using hroom2
    · simp
  · intro hu
    refine List.any_eq_false.mpr ?_
    intro y hy hp
    rcases List.mem_filterMap.mp hy with ⟨x, hx, hdx⟩
    rcases deliverTo_eq_some.mp hdx with ⟨hroom, rfl⟩
    have hxu : x.userId = c.userId := by simpa using hp
    have hxc : x = c := hinj hx hmem (hu x hx hxu)
    exact hfull (hxc ▸ hroom)

theorem broadcast_evicts_only_full_connection_witness :
    (∀ y ∈ (broadcastMessage hubC6 needMsg).clients, y.id ≠ fullClient.id) ∧
    (∀ x ∈ hubC6.clients, x.id ≠ fullClient.id →
      { x with send := x.send ++ [needMsg] } ∈ (broadcastMessage hubC6 needMsg).clients) ∧
    (∀ x ∈ hubC6.clients, x.id ≠ fullClient.id → x.send.length + 1 < x.capacity →
      { x with send := x.send ++ [needMsg, matchMsg] } ∈
        (broadcastMessage (broadcastMessage hubC6 needMsg) matchMsg).clients) ∧
    ((∀ x ∈ hubC6.clients, x.userId = fullClient.userId → x.id = fullClient.id) →
      IsUserConnected (broadcastMessage hubC6 needMsg) fullClient.userId = false) :=
  broadcast_evicts_only_full_connection hubC6 needMsg matchMsg fullClient
    (by with_unfolding_all decide) (by with_unfolding_all decide)
    (by with_unfolding_all decide) (by with_unfolding_all decide)

/-- C7 counterexample: with one registered connection owned by `"user7"` whose
queue is full, `SendToUser("user7", m)` does not enqueue `m` onto that
connection's queue — it evicts the connection instead, leaving the registry
empty.  So `SendToUser` does not enqueue onto *every* registered connection of
the target user in every registry state. -/
theorem sendToUser_full_queue_counterexample :
    fullClient7 ∈ hubC7.clients ∧ fullClient7.userId = "user7" ∧
    (SendToUser hubC7 "user7" matchMsg).clients = [] := by
  refine ⟨by with_unfolding_all decide, by with_unfolding_all decide,
    by with_unfolding_all decide⟩

theorem sendToUser_filter_other_users (u : String) (msg : WebSocketMessage) :
    ∀ l : List WebSocketClient,
      (l.filterMap (fun c => if c.userId = u then deliverTo msg c else some c)).filter
          (fun c => decide (c.userId ≠ u)) =
        l.filter (fun c => decide (c.userId ≠ u))
  | [] => rfl
  | x :: xs => by
    have ih := sendToUser_filter_other_users u msg xs
    by_cases hx : x.userId = u
    · rcases hd : deliverTo msg x with _ | y
      · simpa [List.filterMap_cons, hx, hd, List.filter_cons] using ih
      · rcases deliverTo_eq_some.mp hd with ⟨hroom, rfl⟩
        simpa [List.filterMap_cons, hx, hd, List.filter_cons] using ih
    · simpa [List.filterMap_cons, hx, List.filter_cons] using ih

theorem filterMap_id_of_no_user (u : String) (msg : WebSocketMessage) :
    ∀ l : List WebSocketClient, (∀ x ∈ l, x.userId ≠ u) →
      l.filterMap (fun c => if c.userId = u then deliverTo msg c else some c) = l
  | [], _ => rfl
  | x :: xs, h => by
    have hx : x.userId ≠ u := h x (List.mem_cons_self x xs)
    have hxs : ∀ y ∈ xs, y.userId ≠ u := fun y hy => h y (List.mem_cons_of_mem x hy)
    simp [List.filterMap_cons, hx, filterMap_id_of_no_user u msg xs hxs]

/-- C7 (amended): `SendToUser(U, m)` enqueues `m` onto every registered
connection of `U` whose bounded queue has spare room; a connection of `U`
whose queue is full is evicted (removed, queue closed) rather than enqueued;
connections of other users are left exactly as they were (no delivery to
them); and when `U` owns no registered connection the call is a silent no-op
on the registry.  No case raises an error (the operation is total). -/
theorem sendToUser_delivers_or_evicts
    (ws : WebSocketService) (u : String) (msg : WebSocketMessage)
    (hids : (ws.clients.map WebSocketClient.id).Nodup) :
    (∀ x ∈ ws.clients, x.userId = u → x.send.length < x.capacity →
      { x with send := x.send ++ [msg] } ∈ (SendToUser ws u msg).clients) ∧
    (∀ x ∈ ws.clients, x.userId = u → ¬ x.send.length < x.capacity →
      ∀ y ∈ (SendToUser ws u msg).clients, y.id ≠ x.id) ∧
    ((SendToUser ws u msg).clients.filter (fun c => decide (c.userId ≠ u)) =
      ws.clients.filter (fun c => decide (c.userId ≠ u))) ∧
    ((∀ x ∈ ws.clients, x.userId ≠ u) → SendToUser ws u msg = ws) := by
  have hinj := List.inj_on_of_nodup_map hids
  refine ⟨?_, ?_, sendToUser_filter_other_users u msg ws.clients, ?_⟩
  · intro x hx hxu hroom
    refine List.mem_filterMap.mpr ⟨x, hx, ?_⟩
    rw [if_pos hxu]
    exact deliverTo_eq_some.mpr ⟨hroom, rfl⟩
  · intro x hx hxu hfull y hy heq
    rcases List.mem_filterMap.mp hy with ⟨z, hz, hdz⟩
    by_cases hzu : z.userId = u
    · rw [if_pos hzu] at hdz
      rcases deliverTo_eq_some.mp hdz with ⟨hroom, rfl⟩
      exact hfull (hinj hz hx heq ▸ hroom)
    · rw [if_neg hzu] at hdz
      cases Option.some.inj hdz
      exact hzu (by rw [hinj hz hx heq]; exact hxu)
  · intro hno
    cases ws with
    | mk clients => exact congrArg WebSocketService.mk (filterMap_id_of_no_user u msg clients hno)

theorem sendToUser_delivers_or_evicts_witness :
    (∀ x ∈ hubC6.clients, x.userId = "userOk" → x.send.length < x.capacity →
      { x with send := x.send ++ [matchMsg] } ∈ (SendToUser hubC6 "userOk" matchMsg).clients) ∧
    (∀ x ∈ hubC6.clients, x.userId = "userOk" → ¬ x.send.length < x.capacity →
      ∀ y ∈ (SendToUser hubC6 "userOk" matchMsg).clients, y.id ≠ x.id) ∧
    ((SendToUser hubC6 "userOk" matchMsg).clients.filter
        (fun c => decide (c.userId ≠ "userOk")) =
      hubC6.clients.filter (fun c => decide (c.userId ≠ "userOk"))) ∧
    ((∀ x ∈ hubC6.clients, x.userId ≠ "userOk") → SendToUser hubC6 "userOk" matchMsg = hubC6) :=
  sendToUser_delivers_or_evicts hubC6 "userOk" matchMsg (by with_unfolding_all decide)

end NeighborNexus
